import Mathlib

/-!
Shallow embedding of the cross-core coordination core of
HydroManager (src/HydroManager/main/hydro_manager_main.c).

Modelling conventions:
- C machine integers are modelled as Nat/Int; `float` arithmetic is
  modelled exactly over the rationals (the engineering-unit formulas are
  claims about the algebraic formula the code computes).
- The FreeRTOS queue primitives are modelled as a bounded FIFO list with
  an explicit capacity, as created by `xQueueCreate`.
- Blocking with a timeout is modelled state-based: a semaphore take that
  would not succeed within its timeout is an explicit `false` argument;
  a queue send to a full queue fails (`errQUEUE_FULL`), a receive from an
  empty queue times out.
- `ESP_ERROR_CHECK(x)` aborts the device when `x` is not `ESP_OK`; an
  abort is modelled as an `Except.error` result carrying the error code.
- The NVS persistent store is modelled by the readable blobs it holds for
  the two keys this program uses; any unreadable record (key absent, size
  mismatch, store error) is `none`.
-/

/-- Error codes of the ESP-IDF calls this core actually hits;
`ESP_OK` is represented by `Except.ok`. -/
inductive EspErr
  | ESP_ERR_TIMEOUT
  | ESP_ERR_INVALID_STATE
  | ESP_ERR_NVS_NOT_FOUND
  deriving DecidableEq, Repr

/-- struct StructVersion -/
structure StructVersion where
  major : Nat
  minor : Nat
  deriving DecidableEq, Repr

/-- struct SystemSettings -/
structure SystemSettings where
  magic : Nat
  version : StructVersion
  auto_ph : Nat
  refill_mode : Nat
  ph_stabilize_interval : Nat
  ph_dose_length : Nat
  refill_dose_length : Nat
  deriving DecidableEq, Repr

/-- enum SystemCommandType -/
inductive SystemCommandType
  | CMD_READING_REQUEST
  | CMD_SETTINGS_UPDATE
  deriving DecidableEq, Repr

/-- struct SystemCommand: tag plus the union payload (the
`updated_settings` member is meaningful only for `CMD_SETTINGS_UPDATE`;
C zero-initializes it when a designated initializer omits it). -/
structure SystemCommand where
  cmd_type : SystemCommandType
  updated_settings : SystemSettings
  deriving DecidableEq, Repr

/-- struct SensorReading; `ph`, `temp`, `humidity` are C floats modelled
as rationals, `tds` is a `uint32_t`, `timestamp` a `time_t`. -/
structure SensorReading where
  timestamp : Int
  ph : ℚ
  temp : ℚ
  humidity : ℚ
  tds : Nat
  deriving DecidableEq, Repr

/-- struct SystemResponse: tag plus the union payload (the `reading`
member is meaningful only for `CMD_READING_REQUEST`). -/
structure SystemResponse where
  cmd_type : SystemCommandType
  reading : SensorReading
  deriving DecidableEq, Repr

/-- struct PhCalibration -/
structure PhCalibration where
  ph_7 : ℚ
  ph_4 : ℚ
  ph_10 : ℚ
  deriving DecidableEq, Repr

/-- AUTO_PH_OFF -/
def AUTO_PH_OFF : Nat := 0
/-- AUTO_PH_ON -/
def AUTO_PH_ON : Nat := 1
/-- REFILL_OFF -/
def REFILL_OFF : Nat := 0
/-- REFILL_ON -/
def REFILL_ON : Nat := 1
/-- REFILL_CIRCULATE -/
def REFILL_CIRCULATE : Nat := 2

/-- ADS1115_TIMEOUT, in milliseconds (`pdMS_TO_TICKS(40 * 2)`): the
source comment reads "Readings from the ADS1115 should take a maximux of
40 milliseconds". -/
def ADS1115_TIMEOUT_MS : Nat := 40 * 2

/-- BME280_TIMEOUT, in milliseconds (`pdMS_TO_TICKS(10 * 2)`): the
source comment reads "Readings from the BME280 should take a maximum of
10 milliseconds". -/
def BME280_TIMEOUT_MS : Nat := 10 * 2

/-- MAX_WIFI_RETRIES -/
def MAX_WIFI_RETRIES : Nat := 10

/-- The compiled-in default `g_system_settings` initializer. -/
def default_g_system_settings : SystemSettings :=
  { magic := 0xc0ffee15
    version := { major := 1, minor := 0 }
    auto_ph := AUTO_PH_ON
    refill_mode := REFILL_OFF
    ph_stabilize_interval := 30 * 60 * 1000
    ph_dose_length := 1000
    refill_dose_length := 30 * 1000 }

/-- The compiled-in default `g_ph_cal` initializer. -/
def default_g_ph_cal : PhCalibration :=
  { ph_7 := 1500, ph_4 := 2030, ph_10 := 975 }

/-- The all-zero `SystemSettings` record (what C designated
initialization leaves in an omitted union member). -/
def zero_system_settings : SystemSettings :=
  { magic := 0
    version := { major := 0, minor := 0 }
    auto_ph := 0
    refill_mode := 0
    ph_stabilize_interval := 0
    ph_dose_length := 0
    refill_dose_length := 0 }

/-! ## FreeRTOS queue model -/

/-- A FreeRTOS message queue: a FIFO (front at the head) bounded by the
capacity it was created with. -/
structure BoundedQueue (α : Type) where
  capacity : Nat
  items : List α
  deriving DecidableEq, Repr

/-- xQueueCreate -/
def xQueueCreate (α : Type) (cap : Nat) : BoundedQueue α :=
  { capacity := cap, items := [] }

/-- xQueueSendToBack: append when the queue has room; otherwise fail
with `errQUEUE_FULL` (returned as `false`), leaving the queue
unchanged. -/
def xQueueSendToBack {α : Type} (q : BoundedQueue α) (x : α) :
    BoundedQueue α × Bool :=
  if q.items.length < q.capacity then
    ({ q with items := q.items ++ [x] }, true)
  else
    (q, false)

/-- xQueueReceive: pop the front item; an empty queue times out
(returned as `none`), leaving the queue unchanged. -/
def xQueueReceive {α : Type} (q : BoundedQueue α) :
    BoundedQueue α × Option α :=
  match q.items with
  | [] => (q, none)
  | x :: rest => ({ q with items := rest }, some x)

/-- uxQueueMessagesWaiting -/
def uxQueueMessagesWaiting {α : Type} (q : BoundedQueue α) : Nat :=
  q.items.length

/-! ## Connectivity state machine (wifi_system_event_handler) -/

/-- The link-state signals `wifi_system_event_handler` dispatches on. -/
inductive WifiEvent
  | staStart
  | staDisconnected
  | gotIp
  deriving DecidableEq, Repr

/-- The state touched by `wifi_system_event_handler`: the retry counter
`g_wifi_retried` and the two bits of `g_wifi_event_group`. -/
structure WifiState where
  g_wifi_retried : Nat
  connectedBit : Bool
  failBit : Bool
  deriving DecidableEq, Repr

/-- State at startup: `g_wifi_retried = 0`, no event-group bits set. -/
def wifiInitial : WifiState :=
  { g_wifi_retried := 0, connectedBit := false, failBit := false }

/-- wifi_system_event_handler: returns the new state and the number of
`esp_wifi_connect()` calls the handler issued (0 or 1). -/
def wifi_system_event_handler (s : WifiState) (e : WifiEvent) :
    WifiState × Nat :=
  match e with
  | .staStart =>
      -- Connect to AP when WiFi station has started
      (s, 1)
  | .staDisconnected =>
      if s.g_wifi_retried < MAX_WIFI_RETRIES then
        -- esp_wifi_connect(); g_wifi_retried += 1
        ({ s with g_wifi_retried := s.g_wifi_retried + 1 }, 1)
      else
        -- xEventGroupSetBits(g_wifi_event_group, WIFI_FAIL_BIT)
        ({ s with failBit := true }, 0)
  | .gotIp =>
      -- g_wifi_retried = 0; xEventGroupSetBits(..., WIFI_CONNECTED_BIT)
      ({ s with g_wifi_retried := 0, connectedBit := true }, 0)

/-- Run the handler over a sequence of signals, accumulating the total
number of `esp_wifi_connect()` calls issued. -/
def runWifi (s : WifiState) (es : List WifiEvent) : WifiState × Nat :=
  match es with
  | [] => (s, 0)
  | e :: rest =>
      let step := wifi_system_event_handler s e
      let tail := runWifi step.1 rest
      (tail.1, step.2 + tail.2)

/-! ## Sensor functions -/

/-- `ads111x_gain_values[ADS111X_GAIN_4V096]` from the ads111x driver:
the +-4.096 V full-scale range selected by `ADS1115_GAIN`. -/
def ads111x_gain_value : ℚ := 4096 / 1000

/-- `ADS111X_MAX_VALUE` (0x7fff) from the ads111x driver. -/
def ADS111X_MAX_VALUE : ℚ := 32767

/-- adc_raw_to_volts -/
def adc_raw_to_volts (raw : ℤ) : ℚ :=
  ads111x_gain_value / ADS111X_MAX_VALUE * (raw : ℚ)

/-- Truncation toward zero, the C `float` to integer conversion. -/
def ratTruncTowardZero (q : ℚ) : ℤ :=
  if 0 ≤ q then ⌊q⌋ else -⌊-q⌋

/-- The C cast `(uint32_t)tds` applied to a float (for the in-range
values this device produces). -/
def c_float_to_uint32 (q : ℚ) : Nat :=
  (ratTruncTowardZero q).toNat

/-- adc_read: validate the mux, then take `g_adc_mutex` with
`ADS1115_TIMEOUT`; `adcMutexFree` states whether the take succeeds
within that timeout, `raw` is the value the conversion sequence
delivers. -/
def adc_read (mux : ℤ) (adcMutexFree : Bool) (raw : ℤ) :
    Except EspErr ℤ :=
  if mux < 0 ∨ mux > 3 then
    .error .ESP_ERR_INVALID_STATE
  else if adcMutexFree = false then
    .error .ESP_ERR_TIMEOUT
  else
    .ok raw

/-- bme280_read: take `g_bme280_mutex` with `BME280_TIMEOUT`;
`bmeMutexFree` states whether the take succeeds within that timeout,
`temp`/`humidity` are the values the driver delivers. -/
def bme280_read (bmeMutexFree : Bool) (temp humidity : ℚ) :
    Except EspErr (ℚ × ℚ) :=
  if bmeMutexFree = false then
    .error .ESP_ERR_TIMEOUT
  else
    .ok (temp, humidity)

/-! ## System command functions -/

/-- The values the transducer drivers would deliver on this cycle:
`raw mux` is the ADS1115 conversion result on the given mux,
`temp`/`humidity` the BME280 outputs. -/
structure TransducerEnv where
  raw : ℤ → ℤ
  temp : ℚ
  humidity : ℚ

/-- The hardware acquisitions `system_send_reading` performs, in call
order. -/
inductive AcquireEvent
  | adcReadEvt (mux : ℤ)
  | bme280ReadEvt
  deriving DecidableEq, Repr

/-- The `struct SystemResponse` initializer in `system_send_reading`:
the designated initializer omits `.timestamp`, so C zero-initializes
it. -/
def mk_reading_response (ph_raw tds_raw : ℤ) (temp humidity : ℚ) :
    SystemResponse :=
  { cmd_type := .CMD_READING_REQUEST
    reading :=
      { timestamp := 0
        ph := adc_raw_to_volts ph_raw * 4
        temp := temp
        humidity := humidity
        tds := c_float_to_uint32 (adc_raw_to_volts tds_raw * 1000) } }

/-- system_send_reading: read ADC mux 0, then mux 1, then the BME280
(each wrapped in `ESP_ERROR_CHECK`, so a driver failure aborts), build
the response and send it to `g_system_response_queue`; a full response
queue is logged and the reading dropped. Returns the resulting response
queue (or the abort) together with the trace of hardware acquisitions
performed. -/
def system_send_reading (env : TransducerEnv) (adcMutexFree bmeMutexFree : Bool)
    (rq : BoundedQueue SystemResponse) :
    Except EspErr (BoundedQueue SystemResponse) × List AcquireEvent :=
  match adc_read 0 adcMutexFree (env.raw 0) with
  | .error e => (.error e, [.adcReadEvt 0])
  | .ok ph_raw =>
    match adc_read 1 adcMutexFree (env.raw 1) with
    | .error e => (.error e, [.adcReadEvt 0, .adcReadEvt 1])
    | .ok tds_raw =>
      match bme280_read bmeMutexFree env.temp env.humidity with
      | .error e => (.error e, [.adcReadEvt 0, .adcReadEvt 1, .bme280ReadEvt])
      | .ok th =>
        let response := mk_reading_response ph_raw tds_raw th.1 th.2
        -- On errQUEUE_FULL the code logs and returns; either way the
        -- function returns normally with the queue xQueueSendToBack left.
        ((xQueueSendToBack rq response).1 |> .ok,
         [.adcReadEvt 0, .adcReadEvt 1, .bme280ReadEvt])

/-! ## HTTP server functions -/

/-- The JSON object `handle_http_api_readings` serializes: fields
`time`, `ph`, `tds`, `temp`, `humidity`. -/
structure JsonReading where
  time : Int
  ph : ℚ
  tds : Nat
  temp : ℚ
  humidity : ℚ
  deriving DecidableEq, Repr

/-- handle_http_api_readings: send a `CMD_READING_REQUEST` command to
`g_system_command_queue` (a full queue is reported as a timeout error),
wait for a response on `g_system_response_queue` (an empty queue is a
timeout error), check the response tag, and serialize the JSON reply;
`now` is what `time(NULL)` returns at serialization. Returns the two
queues as the handler leaves them and the handler's result. -/
def handle_http_api_readings (now : Int)
    (cq : BoundedQueue SystemCommand) (rq : BoundedQueue SystemResponse) :
    (BoundedQueue SystemCommand × BoundedQueue SystemResponse) ×
      Except EspErr JsonReading :=
  let cmd : SystemCommand :=
    { cmd_type := .CMD_READING_REQUEST, updated_settings := zero_system_settings }
  match xQueueSendToBack cq cmd with
  | (cq1, false) => ((cq1, rq), .error .ESP_ERR_TIMEOUT)
  | (cq1, true) =>
    match xQueueReceive rq with
    | (rq1, none) => ((cq1, rq1), .error .ESP_ERR_TIMEOUT)
    | (rq1, some response) =>
      if response.cmd_type = .CMD_READING_REQUEST then
        ((cq1, rq1),
         .ok { time := now
               ph := response.reading.ph
               tds := response.reading.tds
               temp := response.reading.temp
               humidity := response.reading.humidity })
      else
        ((cq1, rq1), .error .ESP_ERR_INVALID_STATE)

/-- The calls `wifi_connect_handler` / `wifi_disconnect_handler` can
make, in call order. -/
inductive NetEvent
  | sntpRefreshEvt
  | httpStartEvt
  | httpStopEvt
  deriving DecidableEq, Repr

/-- wifi_connect_handler: refresh SNTP, then start the HTTP server only
if the handle is not live (`*server == NULL`); `fresh` is the handle
`start_http_server` would return. Returns the new handle slot and the
trace of calls made. -/
def wifi_connect_handler (server : Option Nat) (fresh : Nat) :
    Option Nat × List NetEvent :=
  match server with
  | none => (some fresh, [.sntpRefreshEvt, .httpStartEvt])
  | some h => (some h, [.sntpRefreshEvt])

/-- wifi_disconnect_handler: stop the HTTP server only if the handle is
live; `stopOk` states whether `httpd_stop` succeeds (on failure the
handle is kept). -/
def wifi_disconnect_handler (server : Option Nat) (stopOk : Bool) :
    Option Nat × List NetEvent :=
  match server with
  | some h => if stopOk then (none, [.httpStopEvt]) else (some h, [.httpStopEvt])
  | none => (none, [])

/-! ## Persistent store and initialization -/

/-- The NVS namespace "HydroManager" as this program reads it: the
readable blob under each of the two keys it uses, or `none` when the key
is absent, the stored size mismatches, or the store errors. -/
structure NvsStore where
  phCalBlob : Option PhCalibration
  settingsBlob : Option SystemSettings
  deriving DecidableEq, Repr

/-- The settings/calibration section of `initialize_hardware` (the
driver initialization around it is out of scope). PhCalibration:
`nvs_get_blob` failure writes the compiled-in default back and proceeds
with it. SystemSettings: `nvs_get_blob`, then
`ESP_ERROR_CHECK(system_settings_result)` — which aborts the device on
any failure, so the `if (system_settings_result != ESP_OK)` write-back
branch below it can never run. Returns the store and the two loaded
globals, or the abort. -/
def initialize_hardware (st : NvsStore) :
    Except EspErr (NvsStore × PhCalibration × SystemSettings) :=
  -- nvs_get_blob(nvs_handle, "PhCalibration", &g_ph_cal, ...)
  let phStep : NvsStore × PhCalibration :=
    match st.phCalBlob with
    | some cal => (st, cal)
    | none =>
        -- nvs_set_blob(..., "PhCalibration", &g_ph_cal, ...): write default
        ({ st with phCalBlob := some default_g_ph_cal }, default_g_ph_cal)
  -- nvs_get_blob(nvs_handle, "SystemSettings", &g_system_settings, ...)
  match phStep.1.settingsBlob with
  | some s =>
      -- ESP_ERROR_CHECK(system_settings_result) passes (result is ESP_OK),
      -- hence the write-default branch guarded by result != ESP_OK is dead
      .ok (phStep.1, phStep.2, s)
  | none =>
      -- ESP_ERROR_CHECK(system_settings_result) aborts the device
      .error .ESP_ERR_NVS_NOT_FOUND

/-- The queues `initialize_resources` creates (the two mutexes it also
creates are modelled at their use sites). -/
structure SystemResources where
  g_system_command_queue : BoundedQueue SystemCommand
  g_system_response_queue : BoundedQueue SystemResponse
  deriving DecidableEq, Repr

/-- initialize_resources: `xQueueCreate(1, sizeof(struct SystemCommand))`
and `xQueueCreate(1, sizeof(struct SystemResponse))`. -/
def initialize_resources : SystemResources :=
  { g_system_command_queue := xQueueCreate SystemCommand 1
    g_system_response_queue := xQueueCreate SystemResponse 1 }

/-! ## Control loop -/

/-- The state one iteration of `system_control_task` can touch, together
with the frame this core cares about: the live settings singleton and
the persistent store (which the loop, in this revision, never writes). -/
structure ControlState where
  g_system_settings : SystemSettings
  store : NvsStore
  commandQ : BoundedQueue SystemCommand
  responseQ : BoundedQueue SystemResponse

/-- One iteration of the `system_control_task` polling loop: if a
command is waiting, dequeue it (a failed dequeue is logged and the
iteration skipped) and dispatch on its tag — `CMD_READING_REQUEST` runs
`system_send_reading`; every other tag (`CMD_SETTINGS_UPDATE`) hits the
`default:` branch, which only logs. An `Except.error` is an
`ESP_ERROR_CHECK` abort inside `system_send_reading`. -/
def system_control_step (env : TransducerEnv)
    (adcMutexFree bmeMutexFree : Bool) (s : ControlState) :
    Except EspErr ControlState :=
  if uxQueueMessagesWaiting s.commandQ > 0 then
    match xQueueReceive s.commandQ with
    | (cq1, none) =>
        -- "Timeout while receiving system command"; continue
        .ok { s with commandQ := cq1 }
    | (cq1, some cmd) =>
      match cmd.cmd_type with
      | .CMD_READING_REQUEST =>
        match system_send_reading env adcMutexFree bmeMutexFree s.responseQ with
        | (.error e, _) => .error e
        | (.ok rq1, _) => .ok { s with commandQ := cq1, responseQ := rq1 }
      | .CMD_SETTINGS_UPDATE =>
        -- default: ESP_LOGE("Unexpected system command type"); the
        -- payload is neither applied to g_system_settings nor persisted
        .ok { s with commandQ := cq1 }
  else
    .ok s

/-! ## Spec-side definitions for refinement comparison -/

/-- The spec's channel-voltage formula, from its words: "gain full-scale
divided by the ADC maximum value, times raw", under the configured
+-4.096 V gain. -/
def spec_channel_voltage (raw : ℤ) : ℚ :=
  (4096 / 1000 : ℚ) / 32767 * (raw : ℚ)

/-! ## Claims -/

/-- C1: on a first boot whose persistent store holds no readable
SystemSettings record, initialization does NOT write the default and
proceed — `ESP_ERROR_CHECK(system_settings_result)` aborts the device
before the (dead) default-write branch can run. This evaluates the code
at the failing input: a store with neither blob present. -/
theorem C1_missing_settings_aborts :
    initialize_hardware { phCalBlob := none, settingsBlob := none } =
      Except.error EspErr.ESP_ERR_NVS_NOT_FOUND := by rfl

/-- C2 counterexample: starting with retry count 0, exactly 10
consecutive disconnect signals leave the failure bit UNSET — the claim
that 10 disconnects reach the terminal Failed state is false on the
code (each of the 10 still reissues a connect attempt). -/
theorem C2_ten_disconnects_not_failed :
    (runWifi wifiInitial (List.replicate 10 WifiEvent.staDisconnected)).1.failBit
      = false := by decide

/-- C2 (amended): 11 consecutive disconnect signals with no intervening
address assignment set the failure bit; the first 10 each issue a
connect attempt (10 in total) and the 11th issues none; after only 10
the failure bit is not yet set; the Failed state is a fixpoint of
further disconnects with no connect attempt; and any address-assignment
signal resets the retry counter to 0 and sets the connected bit. -/
theorem C2_connectivity_amended :
    (runWifi wifiInitial (List.replicate 10 WifiEvent.staDisconnected)).1.failBit
      = false
    ∧ runWifi wifiInitial (List.replicate 11 WifiEvent.staDisconnected) =
        ({ g_wifi_retried := 10, connectedBit := false, failBit := true }, 10)
    ∧ wifi_system_event_handler
        { g_wifi_retried := 10, connectedBit := false, failBit := true }
        WifiEvent.staDisconnected =
        ({ g_wifi_retried := 10, connectedBit := false, failBit := true }, 0)
    ∧ ∀ s : WifiState,
        (wifi_system_event_handler s WifiEvent.gotIp).1.g_wifi_retried = 0
        ∧ (wifi_system_event_handler s WifiEvent.gotIp).1.connectedBit = true := by
  refine ⟨by decide, by decide, by decide, ?_⟩
  intro s
  exact ⟨rfl, rfl⟩

/-- C3: the serviced reading's `ph` is the channel-0 voltage (gain
full-scale over the ADC maximum value, times the raw sample) times 4.0,
and `tds` is the channel-1 voltage times 1000 cast to an unsigned
integer, for every pair of raw samples the driver delivers. -/
theorem C3_ph_tds_formulas (env : TransducerEnv) :
    (system_send_reading env true true (xQueueCreate SystemResponse 1)).1 =
      Except.ok
        { capacity := 1
          items := [{ cmd_type := SystemCommandType.CMD_READING_REQUEST
                      reading :=
                        { timestamp := 0
                          ph := spec_channel_voltage (env.raw 0) * 4
                          temp := env.temp
                          humidity := env.humidity
                          tds := c_float_to_uint32
                                   (spec_channel_voltage (env.raw 1) * 1000) } }] } := by
  rfl

/-- C4 counterexample: the analog acquisition timeout is 80 ms, not the
claimed 2 x 8 ms, and the environmental one is 20 ms, not the claimed
2 x 5 ms. -/
theorem C4_timeout_values_counterexample :
    ADS1115_TIMEOUT_MS = 80 ∧ ¬ ADS1115_TIMEOUT_MS = 2 * 8
    ∧ BME280_TIMEOUT_MS = 20 ∧ ¬ BME280_TIMEOUT_MS = 2 * 5 := by decide

/-- C4 (amended): each guard's acquisition timeout is twice the
worst-case conversion latency the code assumes — 2 x 40 ms for the
analog path and 2 x 10 ms for the environmental sensor — and a take
that does not succeed within the timeout returns the distinguishable
`ESP_ERR_TIMEOUT` instead of blocking. -/
theorem C4_timeouts_amended :
    ADS1115_TIMEOUT_MS = 2 * 40 ∧ BME280_TIMEOUT_MS = 2 * 10
    ∧ (∀ raw : ℤ,
        adc_read 0 false raw = Except.error EspErr.ESP_ERR_TIMEOUT
        ∧ adc_read 1 false raw = Except.error EspErr.ESP_ERR_TIMEOUT)
    ∧ (∀ temp humidity : ℚ,
        bme280_read false temp humidity = Except.error EspErr.ESP_ERR_TIMEOUT) := by
  refine ⟨rfl, rfl, ?_, ?_⟩
  · intro raw
    exact ⟨rfl, rfl⟩
  · intro temp humidity
    rfl

/-- C5: both queues are created with capacity exactly one, and a reading
request arriving while a command is already pending is rejected to the
HTTP caller as an error with the command queue left unchanged — the
second request is never queued behind the first. -/
theorem C5_capacity_one_busy :
    initialize_resources.g_system_command_queue.capacity = 1
    ∧ initialize_resources.g_system_response_queue.capacity = 1
    ∧ ∀ (pending : SystemCommand) (rq : BoundedQueue SystemResponse) (now : Int),
        (handle_http_api_readings now { capacity := 1, items := [pending] } rq).2 =
          Except.error EspErr.ESP_ERR_TIMEOUT
        ∧ (handle_http_api_readings now { capacity := 1, items := [pending] } rq).1.1 =
            { capacity := 1, items := [pending] } := by
  refine ⟨rfl, rfl, ?_⟩
  intro pending rq now
  exact ⟨rfl, rfl⟩

/-- C6: when the response queue is still full, the control loop's send
fails, the reading is dropped and the queue is left exactly as it was —
`system_send_reading` returns normally without retrying and without
enqueueing the fresh reading. -/
theorem C6_full_response_queue_drops_reading (env : TransducerEnv)
    (pending : SystemResponse) :
    (system_send_reading env true true { capacity := 1, items := [pending] }).1 =
      Except.ok { capacity := 1, items := [pending] } := by rfl

/-- C7: a serviced reading request performs its hardware acquisitions in
the fixed order analog mux 0, analog mux 1, environmental sensor — in
particular both analog reads strictly precede the environmental read. -/
theorem C7_acquisition_order (env : TransducerEnv)
    (rq : BoundedQueue SystemResponse) :
    (system_send_reading env true true rq).2 =
      [AcquireEvent.adcReadEvt 0, AcquireEvent.adcReadEvt 1,
       AcquireEvent.bme280ReadEvt] := by rfl

/-- C8: responder start/stop is idempotent — the connect handler with a
live handle performs no start call and keeps the handle, and the
disconnect handler with no live handle performs no stop call; both are
guarded by the live/not-live check on the handle. -/
theorem C8_idempotent_start_stop (h fresh : Nat) (stopOk : Bool) :
    (wifi_connect_handler (some h) fresh).1 = some h
    ∧ NetEvent.httpStartEvt ∉ (wifi_connect_handler (some h) fresh).2
    ∧ (wifi_disconnect_handler none stopOk).1 = none
    ∧ NetEvent.httpStopEvt ∉ (wifi_disconnect_handler none stopOk).2 := by
  refine ⟨rfl, ?_, rfl, ?_⟩
  · simp [wifi_connect_handler]
  · cases stopOk <;> decide

/-- C9: dispatching a dequeued SettingsUpdate command leaves the live
settings singleton and the persistent store unchanged — the payload is
never applied and never persisted; only the command tag was examined. -/
theorem C9_settings_update_payload_ignored (env : TransducerEnv)
    (a b : Bool) (payload live : SystemSettings) (store : NvsStore)
    (rq : BoundedQueue SystemResponse) :
    system_control_step env a b
      { g_system_settings := live
        store := store
        commandQ := { capacity := 1
                      items := [{ cmd_type := SystemCommandType.CMD_SETTINGS_UPDATE
                                  updated_settings := payload }] }
        responseQ := rq } =
      Except.ok
        { g_system_settings := live
          store := store
          commandQ := { capacity := 1, items := [] }
          responseQ := rq } := by rfl

/-- C10: every reading the control loop produces carries timestamp 0
(the designated initializer never populates it from the clock), and the
JSON reply's `time` field is the clock value at serialization in the
network handler, independent of the returned reading's timestamp. -/
theorem C10_timestamp_zero_time_from_clock :
    (∀ (ph_raw tds_raw : ℤ) (temp humidity : ℚ),
       (mk_reading_response ph_raw tds_raw temp humidity).reading.timestamp = 0)
    ∧ (∀ (now : Int) (r : SensorReading),
        (handle_http_api_readings now (xQueueCreate SystemCommand 1)
            { capacity := 1
              items := [{ cmd_type := SystemCommandType.CMD_READING_REQUEST
                          reading := r }] }).2 =
          Except.ok
            { time := now, ph := r.ph, tds := r.tds
              temp := r.temp, humidity := r.humidity }) := by
  constructor
  · intro ph_raw tds_raw temp humidity
    rfl
  · intro now r
    rfl
